import Mathlib

/-!
Shallow embedding of the block-toolbar mover-visibility debouncer and the two
toolbar repositioning strategies of this repository
(`packages/block-editor/src/components/block-toolbar/utils.js` and the unnamed
variant file), together with proofs about them.

The debouncer (`useDebouncedShowMovers`) is modelled as an explicit state
machine: React's `useState` flag becomes a record field, the `timeoutRef` ref
cell becomes an `Option Nat` holding the last stored timer handle, and the
host's timer table becomes an explicit list of pending hide timers.  A timer
closure captures the `isFocused` prop at scheduling time, exactly as the
JavaScript closure does.  DOM reads that can dereference `null` are modelled
with `Except`.
-/

/-- The only runtime error relevant here: dereferencing `null`/`undefined`
(a JavaScript `TypeError`). -/
inductive DomError where
  | typeError
deriving DecidableEq, Repr

/-- The DOM node behind the tracked region, as the debouncer observes it:
whether it matches the `:hover` selector and whether it contains
`document.activeElement`. -/
structure RegionNode where
  hovered : Bool
  containsActiveElement : Bool
deriving DecidableEq, Repr

/-- The `ref` argument of the hooks.  `present = false` models a falsy `ref`
value itself; `current` models `ref.current`, which is `null` until React
resolves the reference. -/
structure RegionRef where
  present : Bool
  current : Option RegionNode
deriving DecidableEq, Repr

/-- `getIsHovered`: `return ref && ref.current.matches( ':hover' )`.
When `ref` is falsy the conjunction short-circuits to the falsy `ref`
(boolean `false` to callers); otherwise `ref.current.matches` is read,
which throws when `ref.current` is `null`. -/
def getIsHovered (ref : RegionRef) : Except DomError Bool :=
  if ref.present then
    match ref.current with
    | some node => .ok node.hovered
    | none => .error .typeError
  else
    .ok false

/-- `isFocusedWithin`: `return ref && ref.current.contains( document.activeElement )`,
with the same guard shape as `getIsHovered`. -/
def isFocusedWithin (ref : RegionRef) : Except DomError Bool :=
  if ref.present then
    match ref.current with
    | some node => .ok node.containsActiveElement
    | none => .error .typeError
  else
    .ok false

/-- `shouldHideMovers`: computes `isHovered = getIsHovered()` first (no
short-circuit around the DOM read), then returns `!isFocused && !isHovered`. -/
def shouldHideMovers (ref : RegionRef) (isFocused : Bool) : Except DomError Bool :=
  match getIsHovered ref with
  | .error e => .error e
  | .ok isHovered => .ok (!isFocused && !isHovered)

/-- A hide timer scheduled by `debouncedHideMovers`.  `delay` is the
`debounceTimeout` it was armed with; `capturedIsFocused` is the value of the
`isFocused` prop captured by the timer callback's closure. -/
structure HideTimer where
  handle : Nat
  delay : Nat
  capturedIsFocused : Bool
deriving DecidableEq, Repr

/-- State of one mounted `useDebouncedShowMovers` instance plus the host's
timer table.  Browser timer handles are positive integers, so `timeoutRef`
holding `some h` is exactly the JavaScript `timeout` being truthy. -/
structure DebouncerState where
  showMovers : Bool
  timeoutRef : Option Nat
  pendingTimers : List HideTimer
  nextHandle : Nat
deriving DecidableEq, Repr

/-- Freshly mounted debouncer: `useState(false)` and an unset `useRef()`. -/
def initDebouncer : DebouncerState :=
  { showMovers := false, timeoutRef := none, pendingTimers := [], nextHandle := 1 }

/-- A DOM event as the debouncer touches it. -/
structure UIEvent where
  propagationStopped : Bool
deriving DecidableEq, Repr

/-- `if ( event ) event.stopPropagation()`. -/
def stopPropagation (event : Option UIEvent) : Option UIEvent :=
  event.map (fun e => { e with propagationStopped := true })

/-- `window.clearTimeout`: removes the pending timer with the given handle;
a no-op when no such timer is pending. -/
def clearTimeout (pending : List HideTimer) (handle : Nat) : List HideTimer :=
  pending.filter (fun t => t.handle != handle)

/-- `debouncedShowMovers( event )`: stops propagation when an event is
supplied, clears the timer whose handle is stored in `timeoutRef` (the ref is
not nulled out afterwards, matching the source), and raises the flag when it
is down. -/
def debouncedShowMovers (s : DebouncerState) (event : Option UIEvent) :
    DebouncerState × Option UIEvent :=
  let event := stopPropagation event
  let pendingTimers :=
    match s.timeoutRef with
    | some timeout => clearTimeout s.pendingTimers timeout
    | none => s.pendingTimers
  let showMovers := if s.showMovers = false then true else s.showMovers
  ({ s with pendingTimers := pendingTimers, showMovers := showMovers }, event)

/-- `debouncedHideMovers( event )`: stops propagation when an event is
supplied, then `timeoutRef.current = setTimeout( ... , debounceTimeout )`.
Note that the previously stored handle is overwritten without a
`clearTimeout`; the timer callback's closure captures the current
`isFocused` prop. -/
def debouncedHideMovers (s : DebouncerState) (isFocused : Bool)
    (event : Option UIEvent) (debounceTimeout : Nat) :
    DebouncerState × Option UIEvent :=
  let event := stopPropagation event
  let t : HideTimer :=
    { handle := s.nextHandle, delay := debounceTimeout, capturedIsFocused := isFocused }
  ({ s with pendingTimers := s.pendingTimers ++ [t],
            timeoutRef := some s.nextHandle,
            nextHandle := s.nextHandle + 1 }, event)

/-- The host event loop fires the pending timer with the given handle: the
timer is consumed and its callback runs
`if ( shouldHideMovers() ) setShowMovers( false )`, reading the live hover
state from `ref` and the `isFocused` value captured at scheduling time. -/
def fireHideTimer (s : DebouncerState) (handle : Nat) (ref : RegionRef) :
    Except DomError DebouncerState :=
  match s.pendingTimers.find? (fun t => t.handle == handle) with
  | none => .ok s
  | some t =>
    let s1 := { s with pendingTimers := s.pendingTimers.filter (fun u => u.handle != handle) }
    match shouldHideMovers ref t.capturedIsFocused with
    | .error e => .error e
    | .ok true => .ok { s1 with showMovers := false }
    | .ok false => .ok s1

/-- One DOM event-listener registration: `addEventListener( name, handler, capture )`.
`handlerId` identifies the JavaScript closure passed as the handler. -/
structure DomListener where
  eventName : String
  capture : Bool
  handlerId : Nat
deriving DecidableEq, Repr

/-- Identifier of the `handleOnFocus` closure registered by
`useShowMoversGestures`. -/
def focusHandlerId : Nat := 0

/-- Identifier of the `handleOnBlur` closure registered by
`useShowMoversGestures`. -/
def blurHandlerId : Nat := 1

/-- `node.addEventListener( name, handler, capture )`. -/
def addEventListener (ls : List DomListener) (name : String) (handlerId : Nat)
    (capture : Bool) : List DomListener :=
  ls ++ [{ eventName := name, capture := capture, handlerId := handlerId }]

/-- `node.removeEventListener( name, handler )` with the `capture` argument as
the DOM sees it: a registration is removed only when event name, handler and
capture flag all match, and an omitted third argument defaults to
`capture = false`. -/
def removeEventListener (ls : List DomListener) (name : String) (handlerId : Nat)
    (capture : Bool) : List DomListener :=
  ls.filter (fun l => !(l.eventName == name && l.handlerId == handlerId && l.capture == capture))

/-- State of one mounted `useShowMoversGestures` instance: the inner debouncer,
the `isFocused` flag, the `registerRef` once-only guard, and the node's
listener table. -/
structure GesturesState where
  debouncer : DebouncerState
  isFocused : Bool
  registerRef : Bool
  listeners : List DomListener
deriving DecidableEq, Repr

/-- Freshly rendered `useShowMoversGestures`, before its effect runs. -/
def initGestures : GesturesState :=
  { debouncer := initDebouncer, isFocused := false, registerRef := false, listeners := [] }

/-- The mount effect of `useShowMoversGestures`: when the node is available and
the `registerRef` guard is unset, register capture-phase `focus` and `blur`
listeners and set the guard. -/
def mountGestures (s : GesturesState) (nodePresent : Bool) : GesturesState :=
  if nodePresent && !s.registerRef then
    { s with
        listeners :=
          addEventListener (addEventListener s.listeners "focus" focusHandlerId true)
            "blur" blurHandlerId true,
        registerRef := true }
  else s

/-- The effect cleanup of `useShowMoversGestures` (unmount): when the node is
available, `removeEventListener( 'focus', handleOnFocus )` and
`removeEventListener( 'blur', handleOnBlur )` — both without the capture
argument, so with default `capture = false`.  Nothing in the source clears
`timeoutRef`, so the debouncer state (including its pending timers) is left
untouched. -/
def unmountGestures (s : GesturesState) (nodePresent : Bool) : GesturesState :=
  if nodePresent then
    { s with
        listeners :=
          removeEventListener (removeEventListener s.listeners "focus" focusHandlerId false)
            "blur" blurHandlerId false }
  else s

/-- The constant `moverWidth = 48` of the frame-loop repositioner. -/
def moverWidth : Rat := 48

/-- The constant `buffer = 8`, shared by both repositioning strategies. -/
def buffer : Rat := 8

/-- The fixed left offset `offsetLeft = moverWidth + buffer` of the frame-loop
repositioner. -/
def offsetLeft : Rat := moverWidth + buffer

/-- The fields of a `DOMRect` that the repositioners read.  For the container
rectangle only `x` and `width` are consulted; the anchor rectangle is also
asked for `left`. -/
structure Rect where
  x : Rat
  width : Rat
  left : Rat
deriving DecidableEq, Repr

/-- The style writes one `updatePosition` call performs on the anchor's parent
element: the `translateX` applied, if any, and the `opacity` assigned, if
any. -/
structure StyleEffects where
  transform : Option Rat
  opacity : Option Rat
deriving DecidableEq, Repr

/-- An early return of `updatePosition`: no style attribute is mutated. -/
def noStyleEffects : StyleEffects := { transform := none, opacity := none }

/-- `updatePosition` of the frame-loop strategy.  `refCurrent` is `ref.current`
(the guard `if ( ! node ) return`), `containerNode` is the result of
`document.querySelector( EDITOR_SELECTOR )` — dereferenced without a guard, so
`none` throws — and `targetRect` is `node.parentElement.getBoundingClientRect()`.
`if ( nodeLeft < 0 ) return` precedes all style writes. -/
def updatePosition (refCurrent : Option Unit) (containerNode : Option Rect)
    (targetRect : Rect) : Except DomError StyleEffects :=
  match refCurrent with
  | none => .ok noStyleEffects
  | some _ =>
    match containerNode with
    | none => .error .typeError
    | some containerRect =>
      let containerX := containerRect.x
      let containerWidth := containerRect.width
      let nodeX := targetRect.x
      let nodeWidth := targetRect.width
      let nodeLeft := targetRect.left
      if nodeLeft < 0 then .ok noStyleEffects
      else
        let containerRight := containerWidth + containerX
        let nodeRight := nodeX + nodeWidth
        let totalOffsetLeft := nodeX - offsetLeft
        -- isOverflowLeft = totalOffsetLeft < containerX;
        -- isOverflowRight = nodeRight > containerRight
        let nextTranslateX : Option Rat :=
          if totalOffsetLeft < containerX then some (containerX - totalOffsetLeft)
          else if nodeRight > containerRight then some (containerRight - nodeRight - buffer)
          else none
        -- `if ( nextTranslateX )`: both `undefined` and `0` are falsy
        let transform : Option Rat :=
          match nextTranslateX with
          | some v => if v = 0 then none else some v
          | none => none
        .ok { transform := transform, opacity := some 1 }

/-- The anchor node as the resize-driven strategy sees it: its bounding-box
`x` and the `data-transform-offset` attribute, when set. -/
structure ToolbarNode where
  nodeX : Rat
  transformOffsetAttr : Option Rat
deriving DecidableEq, Repr

/-- The writes one frame of the resize-driven `reposition` performs: the
`translateX` applied to the parent element's style, and the value stored in
the `data-transform-offset` attribute. -/
structure RepositionResult where
  transform : Option Rat
  newAttr : Option Rat
deriving DecidableEq, Repr

/-- The frame body of `reposition` in the resize-driven strategy.
`containerNode` is `ref.current` (guarded: `if ( ! containerNode ) return`);
`editorRect` is the `x` of `document.querySelector( EDITOR_SELECTOR )`'s
bounding box — the query result is dereferenced without a guard, so `none`
throws.  `currentOffset` is `parseFloat( getAttribute( DATA_ATTR ) || 0 )`. -/
def reposition (containerNode : Option ToolbarNode) (editorRect : Option Rat) :
    Except DomError RepositionResult :=
  match containerNode with
  | none => .ok { transform := none, newAttr := none }
  | some node =>
    match editorRect with
    | none => .error .typeError
    | some editorX =>
      let currentOffset := node.transformOffsetAttr.getD 0
      let outerOffset : Rat := 48
      let innerOffset := node.nodeX - editorX
      let diff := outerOffset - innerOffset + currentOffset
      let nextTranslateX := if diff > 0 then diff + buffer else 0
      .ok { transform := some nextTranslateX, newAttr := some nextTranslateX }

/-- Spec state discipline: the debouncer is `Hidden`, `Visible` or
`Visible-PendingHide` — i.e. at most one hide timer is pending, and when one
is pending its handle is the tracked one. -/
def atMostOneTrackedTimer (s : DebouncerState) : Bool :=
  match s.pendingTimers with
  | [] => true
  | [t] => s.timeoutRef == some t.handle
  | _ => false

/-- A mounted `useShowMoversGestures` instance whose region received one
pointer-leave, so one hide timer is pending. -/
def gesturesWithPendingHide : GesturesState :=
  let s0 := mountGestures initGestures true
  { s0 with debouncer := (debouncedHideMovers s0.debouncer s0.isFocused none 500).1 }

/-- Claim C1 (counterexample): two consecutive hide requests on a fresh
debouncer leave two hide timers pending at once, refuting the
cancel-before-schedule invariant as stated. -/
theorem hide_hide_two_pending_counterexample :
    ¬ (((debouncedHideMovers (debouncedHideMovers initDebouncer false none 500).1
          false none 500).1).pendingTimers.length ≤ 1) := by
  decide

/-- Claim C1 (amended): a show request cancels the hide timer whose handle is
currently tracked by `timeoutRef` before setting the flag, but a hide request
cancels nothing: it schedules a fresh timer and merely overwrites the tracked
handle, so consecutive hide requests accumulate pending timers. -/
theorem showCancels_hideOverwrites (s : DebouncerState) (e : Option UIEvent)
    (isFocused : Bool) (d : Nat) :
    ((debouncedShowMovers s e).1).pendingTimers.all
        (fun t => s.timeoutRef != some t.handle) = true
    ∧ ((debouncedHideMovers s isFocused e d).1).pendingTimers
        = s.pendingTimers
          ++ [{ handle := s.nextHandle, delay := d, capturedIsFocused := isFocused }]
    ∧ ((debouncedHideMovers s isFocused e d).1).timeoutRef = some s.nextHandle := by
  refine ⟨?_, rfl, rfl⟩
  simp only [debouncedShowMovers]
  cases h : s.timeoutRef with
  | none => simp [List.all_eq_true]
  | some timeout =>
    simp only [clearTimeout, List.all_eq_true, List.mem_filter, bne_iff_ne]
    rintro t ⟨-, ht⟩
    have hne : t.handle ≠ timeout := by simpa using ht
    intro hcontra
    exact hne (by injection hcontra with hh; exact hh.symm)

/-- Claim C2 (failing input): mount the gestures hook, let a hide request arm
its timer, then run the unmount cleanup.  The hide timer is still pending
(nothing clears `timeoutRef`'s timer) and both listeners are still registered
(they were added with `capture = true` but removed with the default
`capture = false`, which does not match). -/
theorem unmount_leaves_timer_and_listeners :
    ((unmountGestures gesturesWithPendingHide true).debouncer.pendingTimers.length = 1)
    ∧ ((unmountGestures gesturesWithPendingHide true).listeners.length = 2)
    ∧ ((unmountGestures gesturesWithPendingHide true).debouncer
        = gesturesWithPendingHide.debouncer) := by
  decide

/-- Claim C3 (failing input): with the ref object present but its node still
null, the hover query, the focus-within query, and a hide-timer expiry (which
calls the hover query) all throw a TypeError instead of returning false; only
a falsy ref object itself yields false. -/
theorem null_node_queries_throw :
    getIsHovered { present := true, current := none } = .error .typeError
    ∧ isFocusedWithin { present := true, current := none } = .error .typeError
    ∧ fireHideTimer
        { showMovers := true, timeoutRef := some 1,
          pendingTimers := [{ handle := 1, delay := 500, capturedIsFocused := false }],
          nextHandle := 2 } 1 { present := true, current := none } = .error .typeError
    ∧ getIsHovered { present := false, current := none } = .ok false := by
  exact ⟨rfl, rfl, rfl, rfl⟩

/-- Claim C7: with container rect x = 0, width = 800 and anchor rect x = 770,
width = 100, the frame-loop strategy detects right overflow and applies
translateX = 800 − 870 − 8 = −78. -/
theorem updatePosition_right_overflow_scenario :
    updatePosition (some ()) (some { x := 0, width := 800, left := 0 })
        { x := 770, width := 100, left := 770 }
      = .ok { transform := some (-78), opacity := some 1 } := by
  norm_num [updatePosition, offsetLeft, moverWidth, buffer]

/-- Claim C8: with anchor rect x = 20 and container left edge 0, the fixed
offset 56 gives totalOffsetLeft = 20 − 56 = −36 < 0, left overflow is
detected, and translateX = 0 − (−36) = 36 is applied. -/
theorem updatePosition_left_overflow_scenario :
    ((20:Rat) - offsetLeft = -36)
    ∧ updatePosition (some ()) (some { x := 0, width := 800, left := 0 })
        { x := 20, width := 100, left := 20 }
      = .ok { transform := some 36, opacity := some 1 } := by
  constructor
  · norm_num [offsetLeft, moverWidth, buffer]
  · norm_num [updatePosition, offsetLeft, moverWidth, buffer]

/-- Claim C9 (counterexample): with the editor container node absent (the
document query returned null), both strategies throw a TypeError instead of
early-returning. -/
theorem absent_container_throws :
    updatePosition (some ()) none { x := 770, width := 100, left := 770 }
      = .error .typeError
    ∧ reposition (some { nodeX := 100, transformOffsetAttr := none }) none
      = .error .typeError := ⟨rfl, rfl⟩

/-- Claim C9 (amended): the absent-anchor-node condition is an early return
that throws nothing and mutates no style in both strategies, and a negative
measured left position is such an early return in the frame-loop strategy
only: the resize-driven strategy has no sign check and unconditionally
computes and writes its transform and attribute, even for a negative measured
position (for instance x = −10 still gets transform 66 applied); the absent
editor container node is not guarded in either strategy. -/
theorem notReady_early_returns (containerNode : Option Rect) (targetRect : Rect)
    (editorRect : Option Rat) (containerRect : Rect) (node : ToolbarNode)
    (editorX : Rat)
    (hneg : targetRect.left < 0) :
    updatePosition none containerNode targetRect = .ok noStyleEffects
    ∧ updatePosition (some ()) (some containerRect) targetRect = .ok noStyleEffects
    ∧ reposition none editorRect = .ok { transform := none, newAttr := none }
    ∧ (∃ v : Rat, reposition (some node) (some editorX)
        = .ok { transform := some v, newAttr := some v })
    ∧ reposition (some { nodeX := -10, transformOffsetAttr := none }) (some 0)
        = .ok { transform := some 66, newAttr := some 66 } := by
  refine ⟨rfl, ?_, rfl, ⟨_, rfl⟩, ?_⟩
  · simp only [updatePosition]
    rw [if_pos hneg]
  · norm_num [reposition, buffer, Option.getD]

/-- Witness: a concrete anchor measured at left = −5 is an early return with
no style mutation in the frame-loop strategy. -/
theorem notReady_early_returns_witness :
    updatePosition (some ()) (some { x := 0, width := 800, left := 0 })
        { x := 20, width := 100, left := -5 } = .ok noStyleEffects := by
  exact (notReady_early_returns (some { x := 0, width := 800, left := 0 })
      { x := 20, width := 100, left := -5 } none { x := 0, width := 800, left := 0 }
      { nodeX := -10, transformOffsetAttr := none } 0
      (by norm_num)).2.1

/-- Helper: a timer whose handle is fresh for a list (strictly larger than all
handles in it) is the one found when appended at the end. -/
theorem find_fresh_append (l : List HideTimer) (h : Nat) (t : HideTimer)
    (hl : l.all (fun u => decide (u.handle < h)) = true) (ht : t.handle = h) :
    (l ++ [t]).find? (fun u => u.handle == h) = some t := by
  induction l with
  | nil => simp [List.find?, ht]
  | cons u us ih =>
    rw [List.all_cons] at hl
    have h1 : u.handle < h := by
      have := (Bool.and_eq_true _ _).mp hl |>.1
      exact of_decide_eq_true this
    have h2 := (Bool.and_eq_true _ _).mp hl |>.2
    have hne : (u.handle == h) = false := by
      simp only [beq_eq_false_iff_ne]
      exact Nat.ne_of_lt h1
    simpa [List.find?, hne] using ih h2

/-- Helper: evaluation of a hide-timer expiry over a resolved region node,
when the handle is found among the pending timers. -/
theorem fireHideTimer_found (s : DebouncerState) (h : Nat) (node : RegionNode)
    (t : HideTimer)
    (hfind : s.pendingTimers.find? (fun u => u.handle == h) = some t) :
    fireHideTimer s h { present := true, current := some node }
      = .ok (if (!t.capturedIsFocused && !node.hovered) = true
             then { s with
                      pendingTimers := s.pendingTimers.filter (fun u => u.handle != h),
                      showMovers := false }
             else { s with
                      pendingTimers := s.pendingTimers.filter (fun u => u.handle != h) }) := by
  have hs : shouldHideMovers { present := true, current := some node } t.capturedIsFocused
      = .ok (!t.capturedIsFocused && !node.hovered) := rfl
  simp only [fireHideTimer, hfind, hs]
  cases hb : (!t.capturedIsFocused && !node.hovered) <;> simp [hb]

/-- Claim C4: a hide request while the controls are visible arms a timer for
the debounce interval whose handle becomes the tracked one; when that timer
fires, the flag drops exactly when the region is neither hovered nor
focused-within (`!isFocused && !isHovered`), and stays raised otherwise. -/
theorem hideMovers_arms_and_fires (s : DebouncerState) (isFocused : Bool)
    (e : Option UIEvent) (d : Nat) (node : RegionNode)
    (hvis : s.showMovers = true)
    (hfresh : s.pendingTimers.all (fun t => decide (t.handle < s.nextHandle)) = true) :
    ((debouncedHideMovers s isFocused e d).1).timeoutRef = some s.nextHandle
    ∧ ({ handle := s.nextHandle, delay := d, capturedIsFocused := isFocused } : HideTimer)
        ∈ ((debouncedHideMovers s isFocused e d).1).pendingTimers
    ∧ ∃ s2 : DebouncerState,
        fireHideTimer (debouncedHideMovers s isFocused e d).1 s.nextHandle
            { present := true, current := some node } = .ok s2
        ∧ s2.showMovers = (isFocused || node.hovered)
        ∧ (s2.showMovers = false ↔ (isFocused = false ∧ node.hovered = false)) := by
  have hfind : (((debouncedHideMovers s isFocused e d).1).pendingTimers).find?
      (fun u => u.handle == s.nextHandle)
      = some { handle := s.nextHandle, delay := d, capturedIsFocused := isFocused } := by
    exact find_fresh_append s.pendingTimers s.nextHandle _ hfresh rfl
  refine ⟨rfl, by simp [debouncedHideMovers], ?_⟩
  rw [fireHideTimer_found _ _ _ _ hfind]
  refine ⟨_, rfl, ?_, ?_⟩
  · cases hf : isFocused <;> cases hn : node.hovered <;>
      simp [hf, hn, debouncedHideMovers, hvis]
  · cases hf : isFocused <;> cases hn : node.hovered <;>
      simp [hf, hn, debouncedHideMovers, hvis]

/-- Witness: hide on a visible fresh debouncer, then fire the armed timer with
the region neither hovered nor focused: the flag drops. -/
theorem hideMovers_arms_and_fires_witness :
    ∃ s2 : DebouncerState,
      fireHideTimer (debouncedHideMovers
          { showMovers := true, timeoutRef := none, pendingTimers := [], nextHandle := 1 }
          false none 500).1 1
          { present := true, current := some { hovered := false, containsActiveElement := false } }
        = .ok s2
      ∧ s2.showMovers = false := by
  obtain ⟨-, -, s2, hrun, hshow, -⟩ :=
    hideMovers_arms_and_fires
      { showMovers := true, timeoutRef := none, pendingTimers := [], nextHandle := 1 }
      false none 500 { hovered := false, containsActiveElement := false } rfl (by decide)
  exact ⟨s2, hrun, by simpa using hshow⟩

/-- Claim C5: from any spec state (Hidden, Visible, or Visible-PendingHide), a
show request yields Visible with the pending hide timer cancelled; when
already Visible with no pending timer it changes nothing; a supplied event has
its propagation stopped. -/
theorem show_results_visible_cancelled (s : DebouncerState) (e : Option UIEvent)
    (hs : atMostOneTrackedTimer s = true) :
    ((debouncedShowMovers s e).1).showMovers = true
    ∧ ((debouncedShowMovers s e).1).pendingTimers = []
    ∧ (s.showMovers = true → s.pendingTimers = [] → (debouncedShowMovers s e).1 = s)
    ∧ (∀ ev : UIEvent, e = some ev →
        (debouncedShowMovers s e).2 = some { ev with propagationStopped := true }) := by
  refine ⟨?_, ?_, ?_, ?_⟩
  · cases hb : s.showMovers <;> simp [debouncedShowMovers, hb]
  · rcases hp : s.pendingTimers with - | ⟨t, - | ⟨u, rest⟩⟩
    · cases h : s.timeoutRef <;> simp [debouncedShowMovers, h, clearTimeout, hp]
    · have htr : s.timeoutRef = some t.handle := by
        unfold atMostOneTrackedTimer at hs
        rw [hp] at hs
        simpa using hs
      simp [debouncedShowMovers, htr, clearTimeout, hp]
    · exfalso
      unfold atMostOneTrackedTimer at hs
      rw [hp] at hs
      simp at hs
  · intro hvis hempty
    obtain ⟨sm, tr, pt, nh⟩ := s
    simp only at hvis hempty
    subst hvis hempty
    cases tr <;> simp [debouncedShowMovers, clearTimeout]
  · intro ev he
    subst he
    simp [debouncedShowMovers, stopPropagation]

/-- Witness: a show request on a Visible-PendingHide state cancels the timer
and keeps the controls visible. -/
theorem show_results_visible_cancelled_witness :
    ((debouncedShowMovers
        { showMovers := true, timeoutRef := some 1,
          pendingTimers := [{ handle := 1, delay := 500, capturedIsFocused := false }],
          nextHandle := 2 } (some { propagationStopped := false })).1).showMovers = true
    ∧ ((debouncedShowMovers
        { showMovers := true, timeoutRef := some 1,
          pendingTimers := [{ handle := 1, delay := 500, capturedIsFocused := false }],
          nextHandle := 2 } (some { propagationStopped := false })).1).pendingTimers = [] := by
  have h := show_results_visible_cancelled
      { showMovers := true, timeoutRef := some 1,
        pendingTimers := [{ handle := 1, delay := 500, capturedIsFocused := false }],
        nextHandle := 2 } (some { propagationStopped := false }) (by decide)
  exact ⟨h.1, h.2.1⟩

/-- Claim C6: whenever the frame-loop strategy applies a translation and the
container is wide enough (container width at least anchor width plus the fixed
left offset plus the buffer), the translated anchor's right edge is at or left
of the container's right edge minus the buffer, and its effective left offset
is at or right of the container's left edge. -/
theorem updatePosition_bounds (refCurrent : Option Unit) (containerRect targetRect : Rect)
    (fx : StyleEffects) (tx : Rat)
    (hw : targetRect.width + offsetLeft + buffer ≤ containerRect.width)
    (hrun : updatePosition refCurrent (some containerRect) targetRect = .ok fx)
    (happ : fx.transform = some tx) :
    targetRect.x + targetRect.width + tx ≤ containerRect.x + containerRect.width - buffer
    ∧ containerRect.x ≤ targetRect.x - offsetLeft + tx := by
  have hb : buffer = 8 := rfl
  have ho : offsetLeft = moverWidth + buffer := rfl
  cases refCurrent with
  | none =>
    simp only [updatePosition] at hrun
    rw [Except.ok.injEq] at hrun
    subst hrun
    simp [noStyleEffects] at happ
  | some u =>
    simp only [updatePosition] at hrun
    by_cases hneg : targetRect.left < 0
    · rw [if_pos hneg, Except.ok.injEq] at hrun
      subst hrun
      simp [noStyleEffects] at happ
    · rw [if_neg hneg, Except.ok.injEq] at hrun
      subst hrun
      simp only at happ
      by_cases hleft : targetRect.x - offsetLeft < containerRect.x
      · rw [if_pos hleft] at happ
        simp only at happ
        by_cases h0 : containerRect.x - (targetRect.x - offsetLeft) = 0
        · rw [if_pos h0] at happ
          exact absurd happ (by simp)
        · rw [if_neg h0, Option.some.injEq] at happ
          subst happ
          constructor <;> linarith
      · rw [if_neg hleft] at happ
        by_cases hright : targetRect.x + targetRect.width
            > containerRect.width + containerRect.x
        · rw [if_pos hright] at happ
          simp only at happ
          by_cases h0 : containerRect.width + containerRect.x
              - (targetRect.x + targetRect.width) - buffer = 0
          · rw [if_pos h0] at happ
            exact absurd happ (by simp)
          · rw [if_neg h0, Option.some.injEq] at happ
            subst happ
            constructor <;> linarith
        · rw [if_neg hright] at happ
          exact absurd happ (by simp)

/-- Witness: the right-overflow scenario stays within bounds after the
computed −78 translation. -/
theorem updatePosition_bounds_witness :
    ((770:Rat) + 100 + (-78) ≤ 0 + 800 - buffer)
    ∧ ((0:Rat) ≤ 770 - offsetLeft + (-78)) := by
  exact updatePosition_bounds (some ()) { x := 0, width := 800, left := 0 }
      { x := 770, width := 100, left := 770 }
      { transform := some (-78), opacity := some 1 } (-78)
      (by norm_num [offsetLeft, moverWidth, buffer])
      (by norm_num [updatePosition, offsetLeft, moverWidth, buffer])
      rfl

/-- Claim C10: in the resize-driven strategy every frame computes a
non-negative translation — `diff + buffer` when `diff` is strictly positive
and exactly 0 otherwise — and the value stored in the
`data-transform-offset` attribute equals the translateX just applied. -/
theorem reposition_nonneg_cumulative (node : ToolbarNode) (editorX : Rat) :
    ∃ v : Rat,
      reposition (some node) (some editorX) = .ok { transform := some v, newAttr := some v }
      ∧ 0 ≤ v
      ∧ v = (if 48 - (node.nodeX - editorX) + node.transformOffsetAttr.getD 0 > 0
             then 48 - (node.nodeX - editorX) + node.transformOffsetAttr.getD 0 + buffer
             else 0) := by
  have hb : buffer = 8 := rfl
  refine ⟨if 48 - (node.nodeX - editorX) + node.transformOffsetAttr.getD 0 > 0
          then 48 - (node.nodeX - editorX) + node.transformOffsetAttr.getD 0 + buffer
          else 0, rfl, ?_, rfl⟩
  by_cases hd : 48 - (node.nodeX - editorX) + node.transformOffsetAttr.getD 0 > 0
  · rw [if_pos hd]
    linarith
  · rw [if_neg hd]
